import Mathlib

/-!
Verification development for the modsync repository: a shallow embedding of
the synchronization core of `src/main.py` (the server) and
`src/client/main.py` (the client), with theorems checking the
specification's claims against it.

File contents are modelled as lists of bytes (`List Nat`).  The MD5 digest
function is modelled as a parameter `md5hex : Content → String` wherever a
claim needs only its shape (hexdigest strings are 32 characters long, so the
server's sentinel string "error" is never a digest).  Stateful code is
embedded as explicit state passing: filesystem reads become function
arguments, filesystem writes become components of the returned value, and
the sequence of on-disk states of the archive file during `zip_folder` is
returned as an explicit trace.
-/

namespace Modsync

/-- Bytes of a file. -/
abbrev Content := List Nat

/-- Python `s.startswith(p)` on strings, via the character lists. -/
def str_startswith (s pre : String) : Bool :=
  pre.toList.isPrefixOf s.toList

/-! ### Ignore rules (src/main.py lines 28-43) -/

/-- src/main.py `IGNORE_PREFIXES`. -/
def IGNORE_PREFIXES : List String := ["serveronly_"]

/-- src/main.py `IGNORE_NAMES`. -/
def IGNORE_NAMES : List String := ["ignore_me.txt"]

/-- src/main.py `should_ignore`: the file name starts with an ignored name
prefix or equals an ignored name. -/
def should_ignore (file_name : String) : Bool :=
  IGNORE_PREFIXES.any (fun p => str_startswith file_name p) ||
    IGNORE_NAMES.any (fun n => file_name == n)

/-! ### Server-side manifest scan (src/main.py lines 45-66)

`os.walk` is modelled by the list of files it yields: each with its plain
name (what `should_ignore` sees), its relative path, and the outcome of
reading it (`none` when the read raises, e.g. permission denied or the file
vanished mid-walk). -/

/-- One file yielded by the `os.walk` traversal in `scan_folder_dict`. -/
structure WalkFile where
  name : String
  rel : String
  content : Option Content
deriving DecidableEq

/-- src/main.py `get_md5`: streams the file and returns the hexdigest; any
exception while reading yields the sentinel string "error". -/
def get_md5 (md5hex : Content → String) (readResult : Option Content) : String :=
  match readResult with
  | some c => md5hex c
  | none => "error"

/-- src/main.py `scan_folder_dict`: walks the folder and records
`rel_path -> get_md5` for every non-ignored file. -/
def scan_folder_dict (md5hex : Content → String) (files : List WalkFile) :
    List (String × String) :=
  (files.filter (fun f => !should_ignore f.name)).map
    (fun f => (f.rel, get_md5 md5hex f.content))

/-! ### Archive (zip) build (src/main.py `zip_folder`, lines 68-88)

`zip_folder(folder_path, zip_path)` opens `zipfile.ZipFile(zip_path, "w")`
directly on the canonical cache path — truncating whatever was there — and
then writes the entries one by one; the zip is only complete when the
`with` block closes.  We embed the succession of on-disk states of the file
at `zip_path` as an explicit trace. -/

/-- State of the file at the canonical zip path. `old` is the untouched
previous content (an archive, or `none` when no archive existed yet);
`building` is the truncated/unfinished file with the entries written so
far; `complete` is the finalized archive. -/
inductive ZipFileState where
  | old (archive : Option (List (String × Content)))
  | building (entries : List (String × Content))
  | complete (entries : List (String × Content))
deriving DecidableEq

/-- Trace of the on-disk states of the zip path during `zip_folder`:
the previous content, then the truncated file growing entry by entry, then
(when no exception interrupts the build, `failAt = none`) the finalized
archive.  `failAt = some i` means an exception is raised while writing the
i-th entry (0-based), ending the trace early. -/
def zip_folder_run (prev : Option (List (String × Content)))
    (files : List (String × Content)) (failAt : Option Nat) : List ZipFileState :=
  match failAt with
  | none =>
      ZipFileState.old prev ::
        ((List.range (files.length + 1)).map (fun n => ZipFileState.building (files.take n)) ++
          [ZipFileState.complete files])
  | some i =>
      ZipFileState.old prev ::
        (List.range (min i files.length + 1)).map (fun n => ZipFileState.building (files.take n))

/-- The state the zip path is left in when `zip_folder` returns or raises. -/
def zip_folder_final (prev : Option (List (String × Content)))
    (files : List (String × Content)) (failAt : Option Nat) : ZipFileState :=
  (zip_folder_run prev files failAt).getLastD (ZipFileState.old prev)

/-! ### Cache rebuild pass (src/main.py `create_zip_cache`, lines 104-136)

The pass scans every registered key, selects the keys whose fresh manifest
differs from the persisted hash record, attempts to rebuild each changed
key's archive (exceptions are caught per key inside the `as_completed`
loop), and finally calls `save_hash_record(new_hash)` with the fresh
manifests of ALL keys — whether or not their builds succeeded. -/

/-- Outcome of one `create_zip_cache` pass. `saved_record` is the mapping
passed to `save_hash_record`; `built_ok` are the changed keys whose
`zip_folder` completed; `failed_keys` are the changed keys whose build
raised (the exception is caught and printed). -/
structure CacheResult where
  saved_record : List (String × List (String × String))
  built_ok : List String
  failed_keys : List String
deriving DecidableEq

/-- The keys whose fresh scan differs from the persisted record (or that
have no persisted record), src/main.py lines 112-115. -/
def changed_keys (keys : List String)
    (old_hash : String → Option (List (String × String)))
    (scan : String → List (String × String)) : List String :=
  keys.filter (fun k => old_hash k != some (scan k))

/-- src/main.py `create_zip_cache`: `scan k` is the fresh manifest of key
`k`; `buildOk k` tells whether `zip_folder` for `k` completes without an
exception. -/
def create_zip_cache (keys : List String)
    (old_hash : String → Option (List (String × String)))
    (scan : String → List (String × String))
    (buildOk : String → Bool) : CacheResult :=
  let changed := changed_keys keys old_hash scan
  { saved_record := keys.map (fun k => (k, scan k))
    built_ok := changed.filter (fun k => buildOk k)
    failed_keys := changed.filter (fun k => !buildOk k) }

/-! ### Single-file transfer (client `download_file` + server `_send_file`)

src/client/main.py lines 112-137 and src/main.py lines 273-289. -/

/-- An HTTP response: status code and body bytes. -/
structure HttpResponse where
  status : Nat
  body : Content
deriving DecidableEq

/-- src/main.py `FileBrowserHandler._send_file`: 404 when the file does not
exist; otherwise it always replies 200 with the whole file.  The `Range`
request header (second argument) is never consulted. -/
def send_file (fileContent : Option Content) (_rangeStart : Option Nat) : HttpResponse :=
  match fileContent with
  | some c => { status := 200, body := c }
  | none => { status := 404, body := [] }

/-- The `Range` header `download_file` sends: `bytes=<size>-` whenever the
destination file exists (src/client/main.py lines 119-122). -/
def download_file_range (localFile : Option Content) : Option Nat :=
  match localFile with
  | some p => some p.length
  | none => none

/-- One attempt of src/client/main.py `download_file` against the server's
`_send_file` endpoint: on a 200/206 response the body is appended to the
existing file when `existing_size > 0`, else written from scratch.  Returns
the resulting destination file, or `none` when the attempt fails (non-2xx
status) and the loop retries. -/
def download_file_attempt (serverFile : Option Content) (localFile : Option Content) :
    Option Content :=
  let existing_size := (localFile.getD []).length
  let r := send_file serverFile (download_file_range localFile)
  if r.status = 200 ∨ r.status = 206 then
    some (if existing_size > 0 then localFile.getD [] ++ r.body else r.body)
  else
    none

/-! ### Server manifest as consumed by the client

`collect_download_tasks` (src/client/main.py lines 141-160) walks a JSON
object whose values are either nested objects (directories) or hash strings
(files).  The object is embedded as a mutual inductive so that the
recursion stays structural. -/

mutual

/-- One manifest value: a hash string (file) or a nested object (directory). -/
inductive SNode where
  | file (hash : String)
  | dir (entries : SEntries)

/-- The (name, value) items of one manifest object, in iteration order. -/
inductive SEntries where
  | nil
  | cons (name : String) (node : SNode) (rest : SEntries)

end

/-- Convenience constructor for a flat manifest (only file entries), the
shape actually produced by the server's `scan_folder_dict`. -/
def flatManifest : List (String × String) → SEntries
  | [] => SEntries.nil
  | (n, h) :: rest => SEntries.cons n (SNode.file h) (flatManifest rest)

mutual

/-- src/client/main.py `count_server_files`, one value: leaves count 1,
nested objects are counted recursively. -/
def count_node : SNode → Nat
  | SNode.file _ => 1
  | SNode.dir es => count_server_files es

/-- src/client/main.py `count_server_files`: number of leaf entries. -/
def count_server_files : SEntries → Nat
  | SEntries.nil => 0
  | SEntries.cons _ n rest => count_node n + count_server_files rest

end

/-- Local filesystem state at one relative path, as observed by
`collect_download_tasks`: the path may be absent, or present with the
result of the client's `get_md5` (`none` when the read raises, modelling
`except: return None`). -/
inductive LocalEntry where
  | absent
  | file (md5 : Option String)
deriving DecidableEq

/-- `local_rel = f"{rel_path}/{name}" if rel_path else name`. -/
def joinRel (rel_path name : String) : String :=
  if rel_path = "" then name else rel_path ++ "/" ++ name

mutual

/-- src/client/main.py `collect_download_tasks`, one manifest value at
`local_rel`.  Returns the pair (emitted tasks, locally deleted files):
a missing or unreadable local file emits a task; a present local file with
a differing hash is removed (`os.remove`) and emits a task; a matching hash
emits nothing. -/
def collectNode (loc : String → LocalEntry) (local_rel : String) :
    SNode → List String × List String
  | SNode.file value =>
      match loc local_rel with
      | LocalEntry.absent => ([local_rel], [])
      | LocalEntry.file none => ([local_rel], [])
      | LocalEntry.file (some m) =>
          if m ≠ value then ([local_rel], [local_rel]) else ([], [])
  | SNode.dir es => collectEntries loc local_rel es

/-- src/client/main.py `collect_download_tasks` over the items of one
manifest object, in order. -/
def collectEntries (loc : String → LocalEntry) (rel_path : String) :
    SEntries → List String × List String
  | SEntries.nil => ([], [])
  | SEntries.cons name node rest =>
      ((collectNode loc (joinRel rel_path name) node).1 ++ (collectEntries loc rel_path rest).1,
       (collectNode loc (joinRel rel_path name) node).2 ++ (collectEntries loc rel_path rest).2)

end

mutual

/-- The relative paths of the leaf (file) entries under one manifest value. -/
def nodePaths (local_rel : String) : SNode → List String
  | SNode.file _ => [local_rel]
  | SNode.dir es => entriesPaths local_rel es

/-- The relative paths of all leaf (file) entries of a manifest object. -/
def entriesPaths (rel_path : String) : SEntries → List String
  | SEntries.nil => []
  | SEntries.cons name node rest =>
      nodePaths (joinRel rel_path name) node ++ entriesPaths rel_path rest

end

/-! ### Sync strategy selection (src/client/main.py `__main__`, lines 164-211) -/

/-- The per-folder strategy the main loop ends up in (non-force path). -/
inductive Strategy where
  | skipEmpty
  | fullReplace
  | itemized (tasks : List String)
  | noop
deriving DecidableEq

/-- `ratio = len(tasks) / total_files` (src/client/main.py line 197),
embedded over the rationals. -/
def change_ratio (numTasks total : Nat) : ℚ :=
  (numTasks : ℚ) / (total : ℚ)

/-- The branch structure of src/client/main.py lines 193-211: empty server
folder is skipped; `ratio > 0.5` triggers the full-archive replace;
otherwise a nonempty task list is downloaded itemized; otherwise nothing is
done. -/
def select_strategy (tasks : List String) (total : Nat) : Strategy :=
  if total = 0 then Strategy.skipEmpty
  else if change_ratio tasks.length total > 1 / 2 then Strategy.fullReplace
  else if tasks ≠ [] then Strategy.itemized tasks
  else Strategy.noop

/-- Observable actions of the per-folder main loop. -/
inductive SyncAction where
  | deleteTree
  | makeDirs
  | fetchExtractArchive
  | fetchManifest
  | downloadFiles (tasks : List String)
deriving DecidableEq

/-- One iteration of the client main loop for one folder
(src/client/main.py lines 167-211): the `force` branch deletes the local
tree when present, recreates it and fetches the archive, never touching the
manifest; the other branch fetches the manifest (`server_files = none` when
the request fails or returns non-200) and follows `select_strategy`. -/
def sync_folder (force : Bool) (localTreeExists : Bool)
    (server_files : Option SEntries) (loc : String → LocalEntry) : List SyncAction :=
  if force then
    (if localTreeExists then [SyncAction.deleteTree] else []) ++
      [SyncAction.makeDirs, SyncAction.fetchExtractArchive]
  else
    SyncAction.fetchManifest ::
      match server_files with
      | none => []
      | some sf =>
          let tasks := (collectEntries loc "" sf).1
          let total := count_server_files sf
          match select_strategy tasks total with
          | Strategy.skipEmpty => []
          | Strategy.fullReplace =>
              [SyncAction.deleteTree, SyncAction.makeDirs, SyncAction.fetchExtractArchive]
          | Strategy.itemized ts => [SyncAction.downloadFiles ts]
          | Strategy.noop => []

/-! ### Server GET routing (src/main.py `FileBrowserHandler.do_GET`, lines 140-205) -/

/-- The server-side state `do_GET` consults: the registered folders, the
`cache_files` mapping, and the relevant filesystem predicates. -/
structure ServerState where
  folders : List (String × String)
  cache_files : List (String × String)
  isFile : String → Bool
  isDir : String → Bool
  fileExists : String → Bool

/-- The responses `do_GET` can produce.  The `/clientupdate` sub-branch is
collapsed into one constructor; `homepage`, `folderListing` and
`clientUpdatePage` are 200 HTML pages, `errorNotFound` is a 404. -/
inductive Response where
  | clientUpdateBranch
  | configNames
  | errorNotFound (msg : String)
  | fileStream (path : String)
  | jsonManifest (key : String)
  | folderListing (key : String)
  | homepage
deriving DecidableEq

/-- Python `path.lstrip("/")`. -/
def lstripSlash (s : String) : String :=
  (s.toList.dropWhile (fun c => c == '/')).asString

/-- Python `s.split("/", 1)`: the part before the first slash, and the rest
(`none` when there is no slash). -/
def splitFirstSlash (s : String) : String × Option String :=
  let l := s.toList
  match l.dropWhile (fun c => c != '/') with
  | [] => ((l.takeWhile (fun c => c != '/')).asString, none)
  | _ :: rest => ((l.takeWhile (fun c => c != '/')).asString, some rest.asString)

/-- Python `os.path.basename` for forward-slash paths: the part after the
last slash. -/
def basename (s : String) : String :=
  ((s.toList.reverse.takeWhile (fun c => c != '/')).reverse).asString

/-- Python `os.path.join(base, sub)` on POSIX, for a relative `sub`:
a separator is inserted (and appended when `sub` is empty). -/
def path_join (base sub : String) : String :=
  if sub = "" then base ++ "/" else base ++ "/" ++ sub

/-- Dictionary lookup (`folders[k]`, `cache_files.get(k)`). -/
def lookupStr (k : String) : List (String × String) → Option String
  | [] => none
  | (a, b) :: rest => if a = k then some b else lookupStr k rest

/-- src/main.py `FileBrowserHandler.do_GET`, lines 140-205.  Branches that
return are mapped to their `Response`; every control path that reaches the
end of the method falls through to `send_homepage()` — in particular a
directory request with `download=1` whose cached zip file does not exist on
disk. -/
def do_GET (st : ServerState) (path : String) (download_mode json_mode : Bool) : Response :=
  if str_startswith path "/clientupdate" then Response.clientUpdateBranch
  else if lstripSlash path = "config_names" ∧ json_mode = true then Response.configNames
  else
    let parts := splitFirstSlash (lstripSlash path)
    match lookupStr parts.1 st.folders with
    | some folder_base =>
        let sub_path := parts.2.getD ""
        let real_path := path_join folder_base sub_path
        if should_ignore (basename real_path) then Response.errorNotFound "File is ignored"
        else if st.isFile real_path then Response.fileStream real_path
        else if st.isDir real_path then
          if download_mode then
            match lookupStr parts.1 st.cache_files with
            | some zip_path =>
                if st.fileExists zip_path then Response.fileStream zip_path
                else Response.homepage
            | none => Response.homepage
          else if json_mode then Response.jsonManifest parts.1
          else Response.folderListing parts.1
        else Response.homepage
    | none => Response.homepage

/-! ## Theorems for the claims -/

/-- C1: the claim states that a resumed single-file fetch with a matching
K-byte partial destination (0 < K < full size) completes byte-identical to
the source.  On the code this fails: the client does issue the byte-range
request at K, but `_send_file` ignores the `Range` header and replies 200
with the whole file, and on a 200 with `existing_size > 0` the client
appends the whole body, so a 4-byte source file with a matching 2-byte
partial ends up as 6 bytes, not as the source.  This theorem evaluates the
code at that failing input. -/
theorem c1_resume_appends_full_body :
    download_file_range (some [1, 2]) = some 2 ∧
    send_file (some [1, 2, 3, 4]) (some 2) = { status := 200, body := [1, 2, 3, 4] } ∧
    List.isPrefixOf [1, 2] [1, 2, 3, 4] = true ∧
    download_file_attempt (some [1, 2, 3, 4]) (some [1, 2]) = some [1, 2, 1, 2, 3, 4] ∧
    (some [1, 2, 1, 2, 3, 4] : Option Content) ≠ some [1, 2, 3, 4] := by
  decide

/-- C2: the claim states that the persisted Hash Record never references an
archive that was never finished.  On the code this fails: `create_zip_cache`
catches a failed `zip_folder` per key and still calls
`save_hash_record(new_hash)` with the fresh manifest of every key, so a key
whose archive build raised is persisted as fresh.  (The write itself is also
a plain in-place `open(..., "w")`, not an atomic replace.)  This theorem
evaluates the pass at the failing input: one key with no prior record whose
build fails. -/
theorem c2_hash_record_saved_despite_build_failure :
    create_zip_cache ["k"] (fun _ => none) (fun _ => [("f.txt", "h1")]) (fun _ => false) =
      { saved_record := [("k", [("f.txt", "h1")])], built_ok := [], failed_keys := ["k"] } ∧
    ("k", [("f.txt", "h1")]) ∈
      (create_zip_cache ["k"] (fun _ => none) (fun _ => [("f.txt", "h1")])
        (fun _ => false)).saved_record := by
  decide

/-- C3: the claim states that a failed archive build is logged, never blocks
other keys, and leaves the key's previous archive intact as the servable
artifact.  The first two parts hold, but the last fails on the code:
`zip_folder` opens `zipfile.ZipFile(zip_path, "w")` directly on the
canonical cache path, truncating the previous archive, so a build that
raises after writing 1 of 2 entries leaves a truncated unfinished zip at
the canonical path, not the previous archive.  This theorem evaluates the
code at that failing input (and checks that the sibling key still
rebuilds). -/
theorem c3_failed_build_leaves_truncated_archive :
    zip_folder_final (some [("old.txt", [9])]) [("a.txt", [1]), ("b.txt", [2])] (some 1) =
      ZipFileState.building [("a.txt", [1])] ∧
    ZipFileState.building [("a.txt", [1])] ≠ ZipFileState.old (some [("old.txt", [9])]) ∧
    (create_zip_cache ["k1", "k2"] (fun _ => none) (fun k => [(k, "h")])
        (fun k => k == "k2")).failed_keys = ["k1"] ∧
    (create_zip_cache ["k1", "k2"] (fun _ => none) (fun k => [(k, "h")])
        (fun k => k == "k2")).built_ok = ["k2"] := by
  decide

/-- C4: the claim states that a rebuilt archive is written to a temporary
location and atomically published, so a concurrent reader sees either the
old complete archive or the new complete one.  On the code this fails:
`zip_folder` writes directly to the canonical archive path, whose trace of
on-disk states therefore contains a truncated in-progress state that is
neither the old archive nor the new complete archive — a concurrent reader
of the canonical path can observe it.  This theorem evaluates the trace at
such an input. -/
theorem c4_reader_can_observe_unfinished_archive :
    ZipFileState.building [] ∈ zip_folder_run (some [("old.txt", [9])]) [("a.txt", [1])] none ∧
    ZipFileState.building [] ≠ ZipFileState.old (some [("old.txt", [9])]) ∧
    ZipFileState.building [] ≠ ZipFileState.old none ∧
    ZipFileState.building [] ≠ ZipFileState.complete [("a.txt", [1])] := by
  decide

/-- A 10-file server manifest of which, against `loc5of10`, exactly 5
entries are mismatched or missing. -/
def manifest10 : SEntries :=
  flatManifest [("f1.txt", "h1"), ("f2.txt", "h2"), ("f3.txt", "h3"), ("f4.txt", "h4"),
    ("f5.txt", "h5"), ("f6.txt", "h6"), ("f7.txt", "h7"), ("f8.txt", "h8"),
    ("f9.txt", "h9"), ("f10.txt", "h10")]

/-- Local state for `manifest10`: f1-f5 correct, f6-f7 present with a wrong
hash, f8-f10 absent. -/
def loc5of10 : String → LocalEntry := fun p =>
  match lookupStr p [("f1.txt", "h1"), ("f2.txt", "h2"), ("f3.txt", "h3"), ("f4.txt", "h4"),
      ("f5.txt", "h5"), ("f6.txt", "bad6"), ("f7.txt", "bad7")] with
  | some m => LocalEntry.file (some m)
  | none => LocalEntry.absent

/-- C5: for every non-force folder with a non-empty server manifest the
selector picks the full-archive replace exactly when the change ratio is
strictly greater than 0.5 (the iff below also covers the empty manifest,
where the selector skips and the ratio is 0); and a folder with 10 server
files of which exactly 5 are mismatched or missing has ratio 1/2 and is
synced itemized. -/
theorem c5_full_replace_iff_ratio_above_half :
    (∀ (tasks : List String) (total : Nat),
      select_strategy tasks total = Strategy.fullReplace ↔
        change_ratio tasks.length total > 1 / 2) ∧
    (collectEntries loc5of10 "" manifest10).1 =
      ["f6.txt", "f7.txt", "f8.txt", "f9.txt", "f10.txt"] ∧
    count_server_files manifest10 = 10 ∧
    change_ratio (collectEntries loc5of10 "" manifest10).1.length
      (count_server_files manifest10) = 1 / 2 ∧
    select_strategy (collectEntries loc5of10 "" manifest10).1 (count_server_files manifest10) =
      Strategy.itemized ["f6.txt", "f7.txt", "f8.txt", "f9.txt", "f10.txt"] := by
  have htasks : (collectEntries loc5of10 "" manifest10).1 =
      ["f6.txt", "f7.txt", "f8.txt", "f9.txt", "f10.txt"] := by decide
  have htotal : count_server_files manifest10 = 10 := by decide
  refine ⟨?_, htasks, htotal, ?_, ?_⟩
  · intro tasks total
    by_cases h0 : total = 0
    · subst h0
      rw [select_strategy, if_pos rfl, change_ratio]
      norm_num
      exact fun h => Strategy.noConfusion h
    · rw [select_strategy, if_neg h0]
      by_cases hr : change_ratio tasks.length total > 1 / 2
      · rw [if_pos hr]
        exact ⟨fun _ => hr, fun _ => rfl⟩
      · rw [if_neg hr]
        constructor
        · intro h
          split at h
          · exact Strategy.noConfusion h
          · exact Strategy.noConfusion h
        · intro h
          exact absurd h hr
  · rw [htasks, htotal, change_ratio]
    norm_num
  · rw [htasks, htotal, select_strategy, change_ratio]
    norm_num
    exact fun h => absurd h (by decide)

/-- Applies `c5_full_replace_iff_ratio_above_half` at a concrete input: with
2 of 3 entries changed the ratio exceeds 1/2 and the selector picks the
full-archive replace. -/
theorem c5_witness :
    select_strategy ["a.txt", "b.txt"] 3 = Strategy.fullReplace :=
  (c5_full_replace_iff_ratio_above_half.1 ["a.txt", "b.txt"] 3).mpr (by norm_num [change_ratio])

/-- The server manifest of the C6 scenario. -/
def manifestC6 : SEntries := flatManifest [("a.txt", "HASH1"), ("b/c.txt", "HASH2")]

/-- The local tree of the C6 scenario: only `a.txt`, hashing to HASH1. -/
def locC6 : String → LocalEntry := fun p =>
  if p = "a.txt" then LocalEntry.file (some "HASH1") else LocalEntry.absent

/-- C6: per server-manifest entry, the diff emits a task and deletes nothing
when the local file is missing (or unreadable), deletes the stale local
file and emits a task when it is present with a differing hash, and does
nothing when the hash matches; and on the scenario manifest
(a.txt -> HASH1, b/c.txt -> HASH2) with a local tree holding only a
matching a.txt, the tasks are exactly ["b/c.txt"] with change ratio 1/2. -/
theorem c6_diff_classification :
    (∀ (loc : String → LocalEntry) (p h : String),
      collectNode loc p (SNode.file h) =
        match loc p with
        | LocalEntry.absent => ([p], [])
        | LocalEntry.file none => ([p], [])
        | LocalEntry.file (some m) => if m = h then ([], []) else ([p], [p])) ∧
    collectEntries locC6 "" manifestC6 = (["b/c.txt"], []) ∧
    count_server_files manifestC6 = 2 ∧
    change_ratio (collectEntries locC6 "" manifestC6).1.length
      (count_server_files manifestC6) = 1 / 2 := by
  have hscen : collectEntries locC6 "" manifestC6 = (["b/c.txt"], []) := by decide
  refine ⟨?_, hscen, by decide, ?_⟩
  · intro loc p h
    cases hl : loc p with
    | absent => simp [collectNode, hl]
    | file om =>
        cases om with
        | none => simp [collectNode, hl]
        | some m =>
            by_cases hm : m = h
            · simp [collectNode, hl, hm]
            · simp [collectNode, hl, hm]
  · rw [hscen]
    have h2 : count_server_files manifestC6 = 2 := by decide
    rw [h2, change_ratio]
    norm_num

/-- Applies `c6_diff_classification` at its concrete scenario. -/
theorem c6_witness : collectEntries locC6 "" manifestC6 = (["b/c.txt"], []) :=
  c6_diff_classification.2.1

/-- C7: a file whose read fails during the server-side scan is recorded in
the manifest with the sentinel "error" (the scan of the other files is
unaffected), the sentinel is never a valid content hash (hexdigests are 32
characters, "error" is 5), and the client diff emits a task for an entry
carrying the sentinel whatever the local state is (local hashes, when
present, are 32-character hexdigests and therefore never equal "error"). -/
theorem c7_sentinel_always_refetched (md5hex : Content → String)
    (hlen : ∀ c, (md5hex c).length = 32)
    (files : List WalkFile) (f : WalkFile)
    (hf : f ∈ files) (hread : f.content = none) (hname : should_ignore f.name = false)
    (loc : String → LocalEntry) (p : String)
    (hloc : ∀ m, loc p = LocalEntry.file (some m) → m.length = 32) :
    (f.rel, "error") ∈ scan_folder_dict md5hex files ∧
    (∀ c, md5hex c ≠ "error") ∧
    (∀ g ∈ files, should_ignore g.name = false →
      (g.rel, get_md5 md5hex g.content) ∈ scan_folder_dict md5hex files) ∧
    (collectNode loc p (SNode.file "error")).1 = [p] := by
  have herr : ∀ c, md5hex c ≠ "error" := by
    intro c hc
    have hl32 := hlen c
    rw [hc] at hl32
    exact absurd hl32 (by decide)
  have hmem : ∀ g ∈ files, should_ignore g.name = false →
      (g.rel, get_md5 md5hex g.content) ∈ scan_folder_dict md5hex files := by
    intro g hg hgname
    exact List.mem_map_of_mem _ (List.mem_filter.mpr ⟨hg, by rw [hgname]; rfl⟩)
  refine ⟨?_, herr, hmem, ?_⟩
  · have hthis := hmem f hf hname
    rw [hread] at hthis
    exact hthis
  · cases hl : loc p with
    | absent => simp [collectNode, hl]
    | file om =>
        cases om with
        | none => simp [collectNode, hl]
        | some m =>
            have hm : m ≠ "error" := by
              intro he
              have hl32 := hloc m hl
              rw [he] at hl32
              exact absurd hl32 (by decide)
            simp [collectNode, hl, hm]

/-- A fixed 32-character hexdigest, used to instantiate the digest function
in witnesses. -/
def md5hexW : Content → String := fun _ => "0123456789abcdef0123456789abcdef"

/-- The fixed witness digest indeed has 32 characters. -/
theorem md5hexW_len : ∀ c, (md5hexW c).length = 32 := by
  intro c
  show ("0123456789abcdef0123456789abcdef" : String).length = 32
  decide

/-- Applies `c7_sentinel_always_refetched` at a concrete input: a one-file
scan where the read fails records the sentinel for that file. -/
theorem c7_witness :
    ("bad.txt", "error") ∈ scan_folder_dict md5hexW [⟨"bad.txt", "bad.txt", none⟩] :=
  (c7_sentinel_always_refetched md5hexW md5hexW_len
    [⟨"bad.txt", "bad.txt", none⟩] ⟨"bad.txt", "bad.txt", none⟩ (by decide) rfl (by decide)
    (fun _ => LocalEntry.absent) "x"
    (fun _ h => LocalEntry.noConfusion h)).1

/-- C8: a folder marked `force` is always fully replaced — the local tree is
deleted when present, recreated, and the archive fetched and extracted —
with no manifest fetch, no diff and no itemized downloads, independently of
the server manifest and of the local contents. -/
theorem c8_force_always_full_replace :
    (∀ (localTreeExists : Bool) (sf : Option SEntries) (loc : String → LocalEntry),
      sync_folder true localTreeExists sf loc =
        (if localTreeExists then [SyncAction.deleteTree] else []) ++
          [SyncAction.makeDirs, SyncAction.fetchExtractArchive]) ∧
    (∀ (le : Bool) (sf sf2 : Option SEntries) (loc loc2 : String → LocalEntry),
      sync_folder true le sf loc = sync_folder true le sf2 loc2) ∧
    (∀ (le : Bool) (sf : Option SEntries) (loc : String → LocalEntry),
      SyncAction.fetchManifest ∉ sync_folder true le sf loc ∧
      ∀ ts, SyncAction.downloadFiles ts ∉ sync_folder true le sf loc) := by
  refine ⟨fun le sf loc => rfl, fun le sf sf2 loc loc2 => rfl, ?_⟩
  intro le sf loc
  cases le <;> simp [sync_folder]

/-- Applies `c8_force_always_full_replace` at a concrete input. -/
theorem c8_witness :
    sync_folder true true none (fun _ => LocalEntry.absent) =
      [SyncAction.deleteTree, SyncAction.makeDirs, SyncAction.fetchExtractArchive] := by
  rw [c8_force_always_full_replace.1 true none (fun _ => LocalEntry.absent)]
  rfl

mutual

/-- Helper for C9, one manifest value: every path the diff pass deletes is a
leaf path of that value. -/
theorem collectNode_deleted_sub (loc : String → LocalEntry) (r p : String) :
    ∀ n : SNode, p ∈ (collectNode loc r n).2 → p ∈ nodePaths r n
  | SNode.file v => fun hp => by
      rw [collectNode] at hp
      rw [nodePaths]
      cases hl : loc r with
      | absent => rw [hl] at hp; simp at hp
      | file om =>
          cases om with
          | none => rw [hl] at hp; simp at hp
          | some m =>
              rw [hl] at hp
              by_cases hm : m = v
              · simp [hm] at hp
              · simp [hm] at hp
                simpa using hp
  | SNode.dir es => fun hp => collectEntries_deleted_sub loc r p es hp

/-- Helper for C9 over the items of a manifest object. -/
theorem collectEntries_deleted_sub (loc : String → LocalEntry) (rel p : String) :
    ∀ es : SEntries, p ∈ (collectEntries loc rel es).2 → p ∈ entriesPaths rel es
  | SEntries.nil => fun hp => by simp [collectEntries] at hp
  | SEntries.cons name node rest => fun hp => by
      rw [collectEntries] at hp
      rw [entriesPaths]
      rcases List.mem_append.mp hp with h | h
      · exact List.mem_append.mpr
          (Or.inl (collectNode_deleted_sub loc (joinRel rel name) p node h))
      · exact List.mem_append.mpr
          (Or.inr (collectEntries_deleted_sub loc rel p rest h))

end

/-- C9: during an itemized sync the diff pass never deletes a local file
whose relative path is not an entry (leaf path) of the server manifest. -/
theorem c9_itemized_never_deletes_extra_local_files
    (loc : String → LocalEntry) (rel_path : String) (es : SEntries) (p : String)
    (hp : p ∉ entriesPaths rel_path es) :
    p ∉ (collectEntries loc rel_path es).2 :=
  fun hmem => hp (collectEntries_deleted_sub loc rel_path p es hmem)

/-- One-entry manifest for the C9 witness. -/
def manifestC9 : SEntries := flatManifest [("a.txt", "h1")]

/-- Applies `c9_itemized_never_deletes_extra_local_files` at a concrete
input: a local path absent from the manifest is not deleted even though
every local file disagrees with the server. -/
theorem c9_witness :
    "extra.txt" ∉ (collectEntries (fun _ => LocalEntry.file (some "zzz")) "" manifestC9).2 :=
  c9_itemized_never_deletes_extra_local_files (fun _ => LocalEntry.file (some "zzz")) ""
    manifestC9 "extra.txt" (by decide)

/-- C10: a GET for `/{key}?download=1` on a registered folder key whose
cached archive file is missing on disk does not produce a 404: the handler
falls through to `send_homepage()` and replies 200 with the HTML homepage.
The hypotheses state the scenario: the key is registered and is not one of
the reserved routes, the folder path is a directory, and the cached zip
path exists in `cache_files` but not on disk. -/
theorem c10_missing_archive_falls_through_to_homepage
    (st : ServerState) (key base zip : String)
    (h0 : str_startswith ("/" ++ key) "/clientupdate" = false)
    (h1 : lstripSlash ("/" ++ key) = key)
    (h2 : splitFirstSlash key = (key, none))
    (h3 : lookupStr key st.folders = some base)
    (h4 : should_ignore (basename (path_join base "")) = false)
    (h5 : st.isFile (path_join base "") = false)
    (h6 : st.isDir (path_join base "") = true)
    (h7 : lookupStr key st.cache_files = some zip)
    (h8 : st.fileExists zip = false) :
    do_GET st ("/" ++ key) true false = Response.homepage ∧
    (∀ m, Response.homepage ≠ Response.errorNotFound m) := by
  constructor
  · simp only [do_GET, h0, h1, h2, h3]
    simp [h4, h5, h6, h7, h8]
  · intro m h
    exact Response.noConfusion h

/-- Server state for the C10 witness: one registered key whose cached zip
is absent from the filesystem. -/
def stC10 : ServerState :=
  { folders := [("mods", "srv/mods")]
    cache_files := [("mods", "cache_zip/mods.zip")]
    isFile := fun _ => false
    isDir := fun q => q == "srv/mods/"
    fileExists := fun _ => false }

/-- Applies `c10_missing_archive_falls_through_to_homepage` at a concrete
input. -/
theorem c10_witness :
    do_GET stC10 ("/" ++ "mods") true false = Response.homepage :=
  (c10_missing_archive_falls_through_to_homepage stC10 "mods" "srv/mods" "cache_zip/mods.zip"
    (by decide) (by decide) (by decide) (by decide) (by decide) (by decide) (by decide)
    (by decide) (by decide)).1

end Modsync
